import Mathlib

/-!
Shallow embedding of `server/vcr-server/api/v3/views/search.py` from the
indy-catalyst repository: the bounded query wrapper (`TopicSearchQuerySet`),
the credential search view's validation gate, its topic-mode `list` handler,
the facet orchestrator (`facets`) with its narrowing loop, and the
process-wide result ceiling `LIMIT`.

External collaborators (the haystack search backend, the Django ORM, the
api.v2 filter-backend classes) stay symbolic: they appear as function
parameters or, where a claim depends on their behaviour, as definitions
modelled from the spec and marked as such in their doc comments.
-/

namespace VcrSearch

/-- Embeds the module-level `LIMIT = getattr(settings, "HAYSTACK_MAX_RESULTS", 200)`:
the process-wide ceiling is the integer Django setting `HAYSTACK_MAX_RESULTS`
when present, else 200.  The setting is read once, when the module loads, and
the name is never reassigned afterwards, so the embedding treats it as a pure
function of the startup configuration. -/
def LIMIT (haystackMaxResults : Option Nat) : Nat :=
  haystackMaxResults.getD 200

namespace TopicSearchQuerySet

/-- Embeds `TopicSearchQuerySet.__len__`: `ret = super().__len__()` — the
backend-reported result count, here the parameter `superLen` — replaced by
`LIMIT` when it exceeds it. -/
def len (L : Nat) (superLen : Nat) : Nat :=
  let ret := superLen
  if ret > L then L else ret

/-- Embeds `TopicSearchQuerySet.count`: `ret = super().count()` — the
backend-reported count, here the parameter `superCount` — replaced by `LIMIT`
when it exceeds it. -/
def count (L : Nat) (superCount : Nat) : Nat :=
  let ret := superCount
  if ret > L then L else ret

/-- Embeds the clamping prologue of `TopicSearchQuerySet._fill_cache`: the
pair of bounds that is passed on to `super()._fill_cache`.  A bound that is
not `None` and exceeds `LIMIT` is replaced by `LIMIT`; a `None` bound passes
through unchanged.  (`end` is a Lean keyword, so the second bound is named
`stop` here.) -/
def fillCacheArgs (L : Nat) (start stop : Option Nat) : Option Nat × Option Nat :=
  (match start with
   | none => none
   | some s => some (if s > L then L else s),
   match stop with
   | none => none
   | some e => some (if e > L then L else e))

/-- Modelled from the spec: the materialization performed by the external
search backend (haystack's `RelatedSearchQuerySet._fill_cache`, an external
collaborator outside this repository) once `TopicSearchQuerySet._fill_cache`
has clamped the bounds.  Per the spec, an unset bound has full-result
semantics with a final clamp on the effective values once resolved: an unset
start resolves to 0 and an unset end resolves to the wrapper's clamped
length; the backend then materializes the records of the window that
actually exist among its `C` results.  Records are identified by index. -/
def backendMaterialize (L C : Nat) (start stop : Option Nat) : List Nat :=
  let s := start.getD 0
  let e := min (stop.getD (len L C)) C
  List.range' s (e - s)

/-- The spec's `fetch_window`: `TopicSearchQuerySet._fill_cache` clamps each
non-`None` bound to `LIMIT` (`fillCacheArgs`, straight from the source) and
then delegates to the backend's materialization (`backendMaterialize`,
modelled from the spec). -/
def fetch_window (L C : Nat) (start stop : Option Nat) : List Nat :=
  let args := fillCacheArgs L start stop
  backendMaterialize L C args.1 args.2

end TopicSearchQuerySet

/-- Python's `str.strip()` with no argument: removes leading and trailing
whitespace characters. -/
def strip (s : String) : String :=
  String.mk
    (((s.data.dropWhile Char.isWhitespace).reverse.dropWhile Char.isWhitespace).reverse)

/-- Embeds `CredentialSearchView.valid_search_query`.  `request.GET.get`
yields a string or `None`, so both parameters are `Option String`;
`isinstance(x, str)` is the `some` test and Python's `str.strip()` is
`strip`. -/
def valid_search_query (query topic_id : Option String) : Bool :=
  let is_valid := false
  let is_valid :=
    match query with
    | some q => if (strip q).length ≥ 2 then true else is_valid
    | none => is_valid
  let is_valid :=
    match topic_id with
    | some t => if (strip t).length > 0 then true else is_valid
    | none => is_valid
  is_valid

/-- The two fields of a DRF `APIException` that the view defines. -/
structure APIError where
  status_code : Nat
  detail : String
deriving DecidableEq, Repr

/-- Embeds `MissingTopicParametersException`: `status_code = 400` with the
fixed default detail message. -/
def MissingTopicParametersException : APIError :=
  { status_code := 400
    detail := "Please provide at least a \x27name\x27 (2 characters or more) or \x27topic_id\x27." }

/-- Outcome of `CredentialSearchView.list`: either the handler raises an
`APIException` before delegating — so the backend query run by
`super().list` is never invoked — or it delegates to `super().list`, which
runs the backend query. -/
inductive ListOutcome where
  | raised (e : APIError)
  | delegated
deriving DecidableEq, Repr

/-- Embeds `CredentialSearchView.list`: when `self.object_class is
TopicSearchQuerySet` (topic mode, i.e. the `CredentialTopicSearchView`
subclass) it reads the `name` and `topic_id` query parameters and raises
`MissingTopicParametersException` when `valid_search_query` rejects them;
otherwise it delegates to `super().list`. -/
def CredentialSearchView.list (topicMode : Bool) (name topic_id : Option String) :
    ListOutcome :=
  if topicMode then
    if !(valid_search_query name topic_id) then
      ListOutcome.raised MissingTopicParametersException
    else
      ListOutcome.delegated
  else
    ListOutcome.delegated

/-- A multi-valued HTTP query string: `request.query_params` as an ordered
list of (key, value) pairs.  `getlist params key` returns the values supplied
for `key` in order, as Django's `QueryDict.getlist` does. -/
def getlist (params : List (String × String)) (key : String) : List String :=
  (params.filter (fun p => p.1 = key)).map (fun p => p.2)

/-- Symbolic haystack search queryset: which filter backends have been
applied to it (in order) and which narrowing clauses have been added with
`.narrow` (in order).  The filter-backend classes themselves and
`facet_counts` are external collaborators (api.v2 / drf_haystack), so they
stay symbolic. -/
structure Queryset where
  backendsApplied : List String
  narrows : List String
deriving DecidableEq, Repr

/-- Haystack's `SearchQuerySet.narrow`: appends one narrowing clause (the
backend applies the accumulated clauses conjunctively). -/
def Queryset.narrow (qs : Queryset) (clause : String) : Queryset :=
  { qs with narrows := qs.narrows ++ [clause] }

/-- Embeds `CredentialSearchView.filter_backends`, the full filter set, in
its declared order. -/
def filter_backends : List String :=
  ["CredNameFilter", "CategoryFilter", "ExactFilter", "StatusFilter",
   "HaystackOrderingFilter"]

/-- Embeds `CredentialSearchView.facet_filter_backends`, the looser facet
filter set, in its declared order. -/
def facet_filter_backends : List String :=
  ["CredNameFilter", "ExactFilter", "StatusFilter", "CustomFacetFilter"]

/-- `self.filter_queryset(queryset)`: applies the view's `filter_backends`
in their declared order.  `run b` is the (request-applied) transformation
performed by the external filter backend named `b`. -/
def filter_queryset (run : String → Queryset → Queryset) (qs : Queryset) : Queryset :=
  filter_backends.foldl (fun acc b => run b acc) qs

/-- `self.filter_facet_queryset(queryset)`: applies the view's
`facet_filter_backends` in their declared order. -/
def filter_facet_queryset (run : String → Queryset → Queryset) (qs : Queryset) : Queryset :=
  facet_filter_backends.foldl (fun acc b => run b acc) qs

/-- The fixed tuple of facet-narrowing parameter names iterated by the loop
in `CredentialSearchView.facets`. -/
def facetNarrowKeys : List String :=
  ["category", "credential_type_id", "topic_credential_type_id", "issuer_id"]

/-- One clause built by the loop body in `CredentialSearchView.facets`:
the key and the cleaned value joined as an exact-match narrowing clause,
with the value in double quotes.  `clean` is haystack's
`queryset.query.clean`, an external escaping function. -/
def narrowClause (clean : String → String) (key value : String) : String :=
  key ++ ":\"" ++ clean value ++ "\""

/-- The inner loop of the facet-narrowing loop: `for value in
request.query_params.getlist(key): if value: facet_queryset =
facet_queryset.narrow(...)`.  A falsy (empty) value is skipped. -/
def narrowForValues (clean : String → String) (key : String) (acc : Queryset)
    (values : List String) : Queryset :=
  values.foldl
    (fun a value =>
      if value ≠ "" then a.narrow (narrowClause clean key value) else a)
    acc

/-- The facet-narrowing double loop of `CredentialSearchView.facets`: for
each of the four keys, each supplied truthy value narrows the facet queryset
by one exact-match clause. -/
def facetNarrowLoop (clean : String → String) (params : List (String × String))
    (fq : Queryset) : Queryset :=
  facetNarrowKeys.foldl
    (fun acc key => narrowForValues clean key acc (getlist params key))
    fq

/-- The payload assembled at the end of `CredentialSearchView.facets`:
`get_facet_serializer(facet_queryset.facet_counts(), objects=result_queryset)`.
`facet_counts_src` records which queryset the facet counts are computed
from; `objects` is the queryset whose object list is serialized. -/
structure FacetsResponse where
  facet_counts_src : Queryset
  objects : Queryset
deriving DecidableEq, Repr

/-- Embeds `CredentialSearchView.facets`: derive `facet_queryset` by the
facet filter backends and `result_queryset` by the full filter backends from
the same base queryset, run the facet-narrowing loop on `facet_queryset`
only, then combine facet counts with the `result_queryset` objects. -/
def CredentialSearchView.facets (run : String → Queryset → Queryset)
    (clean : String → String) (params : List (String × String))
    (base : Queryset) : FacetsResponse :=
  let queryset := base
  let facet_queryset := filter_facet_queryset run queryset
  let result_queryset := filter_queryset run queryset
  let facet_queryset := facetNarrowLoop clean params facet_queryset
  { facet_counts_src := facet_queryset, objects := result_queryset }

/-- Embeds the `default` values declared for the three status parameters in
`CredentialSearchView._swagger_params`. -/
def swaggerStatusDefault (param : String) : Option String :=
  if param = "inactive" then some "false"
  else if param = "latest" then some "true"
  else if param = "revoked" then some "false"
  else none

/-- Modelled from the spec: the `StatusFilter` implementation lives in
`api/v2/search/filters.py`, which is not under `src/`.  Per the spec, each
status dimension is a three-valued enum and an absent parameter resolves to
the per-dimension documented default. -/
def resolveStatusParam (supplied : Option String) (dflt : String) : String :=
  supplied.getD dflt

/-- Modelled from the spec: the narrowing a status dimension contributes for
its effective value — the value `"any"` disables narrowing on that
dimension, any other effective value narrows the dimension by it. -/
def statusNarrowing (dim effective : String) : Option String :=
  if effective = "any" then none else some (dim ++ ":" ++ effective)

/-! Helper lemmas shared by the claim theorems. -/

theorem len_eq_min (L C : Nat) : TopicSearchQuerySet.len L C = min C L := by
  simp only [TopicSearchQuerySet.len]
  split <;> omega

theorem count_eq_min (L C : Nat) : TopicSearchQuerySet.count L C = min C L := by
  simp only [TopicSearchQuerySet.count]
  split <;> omega

theorem fillCacheArgs_eq_map_min (L : Nat) (start stop : Option Nat) :
    TopicSearchQuerySet.fillCacheArgs L start stop
      = (start.map (fun s => min s L), stop.map (fun e => min e L)) := by
  cases start <;> cases stop <;>
    simp [TopicSearchQuerySet.fillCacheArgs, Prod.ext_iff, Nat.min_def] <;>
    split_ifs <;> omega

theorem fetch_window_length_le (L C : Nat) (start stop : Option Nat) :
    (TopicSearchQuerySet.fetch_window L C start stop).length ≤ L := by
  simp only [TopicSearchQuerySet.fetch_window, TopicSearchQuerySet.backendMaterialize,
    TopicSearchQuerySet.fillCacheArgs, TopicSearchQuerySet.len]
  cases start <;> cases stop <;> simp [List.length_range'] <;> split_ifs <;> omega

theorem fetch_window_empty_of_start_gt (L C s : Nat) (stop : Option Nat) (h : L < s) :
    TopicSearchQuerySet.fetch_window L C (some s) stop = [] := by
  have hlen : (TopicSearchQuerySet.fetch_window L C (some s) stop).length = 0 := by
    simp only [TopicSearchQuerySet.fetch_window, TopicSearchQuerySet.backendMaterialize,
      TopicSearchQuerySet.fillCacheArgs, TopicSearchQuerySet.len]
    cases stop <;> simp [List.length_range'] <;> split_ifs <;> omega
  exact List.length_eq_zero.mp hlen

theorem narrowForValues_eq (clean : String → String) (key : String)
    (values : List String) (acc : Queryset) :
    narrowForValues clean key acc values
      = { acc with
          narrows := acc.narrows
            ++ (values.filter (fun v => v ≠ "")).map (narrowClause clean key) } := by
  induction values generalizing acc with
  | nil => simp [narrowForValues]
  | cons v vs ih =>
      have step : narrowForValues clean key acc (v :: vs)
          = narrowForValues clean key
              (if v ≠ "" then acc.narrow (narrowClause clean key v) else acc) vs := rfl
      rw [step, ih]
      by_cases h : v = ""
      · simp [h]
      · simp [h, Queryset.narrow, List.append_assoc, List.singleton_append]

theorem facetNarrowLoop_eq (clean : String → String) (params : List (String × String))
    (fq : Queryset) :
    facetNarrowLoop clean params fq
      = { fq with
          narrows := fq.narrows
            ++ ((getlist params "category").filter (fun v => v ≠ "")).map
                (narrowClause clean "category")
            ++ ((getlist params "credential_type_id").filter (fun v => v ≠ "")).map
                (narrowClause clean "credential_type_id")
            ++ ((getlist params "topic_credential_type_id").filter (fun v => v ≠ "")).map
                (narrowClause clean "topic_credential_type_id")
            ++ ((getlist params "issuer_id").filter (fun v => v ≠ "")).map
                (narrowClause clean "issuer_id") } := by
  simp [facetNarrowLoop, facetNarrowKeys, narrowForValues_eq, List.append_assoc]

theorem getlist_cons (p : String × String) (ps : List (String × String)) (key : String) :
    getlist (p :: ps) key
      = if p.1 = key then p.2 :: getlist ps key else getlist ps key := by
  by_cases h : p.1 = key <;> simp [getlist, h]

theorem getlist_filter_falsy (params : List (String × String)) (key : String) :
    (getlist (params.filter (fun p => p.2 ≠ "")) key).filter (fun v => v ≠ "")
      = (getlist params key).filter (fun v => v ≠ "") := by
  induction params with
  | nil => rfl
  | cons p ps ih =>
      simp only [ne_eq, decide_not] at ih
      by_cases h1 : p.2 = "" <;> by_cases h2 : p.1 = key <;>
        simp [getlist_cons, List.filter_cons, h1, h2, ih]

/-! The claim theorems. -/

/-- C1: for every process-wide ceiling `LIMIT = L` and every backend-reported
result count `C`, the bounded query wrapper's `__len__` and `count` both
return `min C L`. -/
theorem claim_C1 (L C : Nat) :
    TopicSearchQuerySet.len L C = min C L ∧ TopicSearchQuerySet.count L C = min C L :=
  ⟨len_eq_min L C, count_eq_min L C⟩

/-- C2: `TopicSearchQuerySet._fill_cache` clamps `start` and `end` each
individually to `LIMIT` before delegating to the backend's materialization
call, a `None` bound passes through unclamped, and a non-`None` bound handed
to the backend never exceeds `LIMIT`. -/
theorem claim_C2 (L : Nat) (start stop : Option Nat) :
    TopicSearchQuerySet.fillCacheArgs L start stop
      = (start.map (fun s => min s L), stop.map (fun e => min e L))
    ∧ (∀ v, (TopicSearchQuerySet.fillCacheArgs L start stop).1 = some v → v ≤ L)
    ∧ (∀ v, (TopicSearchQuerySet.fillCacheArgs L start stop).2 = some v → v ≤ L) := by
  refine ⟨fillCacheArgs_eq_map_min L start stop, ?_, ?_⟩ <;>
    · intro v hv
      rw [fillCacheArgs_eq_map_min] at hv
      cases start <;> cases stop <;> simp at hv <;> omega

/-- Witness for C2: at `L = 200`, a requested window `(500, 100)` is clamped
to `(200, 100)`, so both bounds handed to the backend are at most 200. -/
theorem claim_C2_witness : (200 : Nat) ≤ 200 ∧ (100 : Nat) ≤ 200 := by
  have h := claim_C2 200 (some 500) (some 100)
  exact ⟨h.2.1 200 (by decide), h.2.2 100 (by decide)⟩

/-- C3: the materialized window never holds more than `LIMIT` records, and a
requested window whose `start` exceeds `LIMIT` materializes to the empty
sequence, including when `end` is `None`. -/
theorem claim_C3 (L C : Nat) (start stop : Option Nat) :
    (TopicSearchQuerySet.fetch_window L C start stop).length ≤ L
    ∧ (∀ s, start = some s → L < s →
        TopicSearchQuerySet.fetch_window L C start stop = []) := by
  refine ⟨fetch_window_length_le L C start stop, ?_⟩
  rintro s rfl h
  exact fetch_window_empty_of_start_gt L C s stop h

/-- Witness for C3: with ceiling 2, backend count 10, `start = 5` and `end`
unset, the materialized window is empty. -/
theorem claim_C3_witness :
    TopicSearchQuerySet.fetch_window 2 10 (some 5) none = [] :=
  (claim_C3 2 10 (some 5) none).2 5 rfl (by decide)

/-- C4: `valid_search_query term topic_id` is true exactly when `term` is a
string whose stripped length is at least 2 or `topic_id` is a string whose
stripped length is at least 1; the spec's five sample evaluations hold. -/
theorem claim_C4 (query topic_id : Option String) :
    (valid_search_query query topic_id = true
      ↔ ((∃ q, query = some q ∧ 2 ≤ (strip q).length)
          ∨ (∃ t, topic_id = some t ∧ 1 ≤ (strip t).length)))
    ∧ valid_search_query (some "ab") (some "") = true
    ∧ valid_search_query (some "a") (some "") = false
    ∧ valid_search_query (some "") (some "123") = true
    ∧ valid_search_query (some " ") (some " ") = false
    ∧ valid_search_query none none = false := by
  refine ⟨?_, by decide, by decide, by decide, by decide, by decide⟩
  cases query with
  | none =>
      cases topic_id with
      | none => simp [valid_search_query]
      | some t =>
          by_cases h : (strip t).length > 0 <;>
            simp [valid_search_query, h] <;> omega
  | some q =>
      cases topic_id with
      | none =>
          by_cases h : (strip q).length ≥ 2 <;>
            simp [valid_search_query, h]
      | some t =>
          by_cases h1 : (strip q).length ≥ 2 <;>
            by_cases h2 : (strip t).length > 0 <;>
              simp [valid_search_query, h1, h2] <;> omega

/-- C5: in topic mode, `CredentialSearchView.list` raises the fixed
400-status `MissingTopicParametersException` exactly when
`valid_search_query` rejects the parameters, and in that case it never
delegates to `super().list`, so no backend query is invoked. -/
theorem claim_C5 (name topic_id : Option String) :
    (CredentialSearchView.list true name topic_id
        = ListOutcome.raised MissingTopicParametersException
      ↔ valid_search_query name topic_id = false)
    ∧ MissingTopicParametersException.status_code = 400
    ∧ MissingTopicParametersException.detail
        = "Please provide at least a \x27name\x27 (2 characters or more) or \x27topic_id\x27."
    ∧ (valid_search_query name topic_id = false →
        CredentialSearchView.list true name topic_id ≠ ListOutcome.delegated) := by
  refine ⟨?_, rfl, rfl, ?_⟩
  · cases hv : valid_search_query name topic_id <;>
      simp [CredentialSearchView.list, hv]
  · intro h
    simp [CredentialSearchView.list, h]

/-- Witness for C5: with both parameters absent the handler does not
delegate to the backend. -/
theorem claim_C5_witness :
    CredentialSearchView.list true none none ≠ ListOutcome.delegated :=
  (claim_C5 none none).2.2.2 (by decide)

/-- C6: the facets response serializes facet counts from the facet queryset
(facet filter backends plus the narrowing loop) and objects from the result
queryset built by the full filter backends on the same base; the narrowing
loop never touches the objects component, which is independent of the
narrowing parameters. -/
theorem claim_C6 (run : String → Queryset → Queryset) (clean : String → String)
    (params other_params : List (String × String)) (base : Queryset) :
    (CredentialSearchView.facets run clean params base).objects
        = filter_queryset run base
    ∧ (CredentialSearchView.facets run clean params base).facet_counts_src
        = facetNarrowLoop clean params (filter_facet_queryset run base)
    ∧ (CredentialSearchView.facets run clean params base).objects
        = (CredentialSearchView.facets run clean other_params base).objects :=
  ⟨rfl, rfl, rfl⟩

/-- C7: the narrowing loop iterates exactly the four parameter names, each
supplied non-empty value adds one exact-match clause of the form
`key:"cleaned-value"` (so repeated values for one key are AND-combined as
independent clauses), and supplying `category` twice adds two clauses. -/
theorem claim_C7 (clean : String → String) (params : List (String × String))
    (fq : Queryset) :
    facetNarrowKeys
        = ["category", "credential_type_id", "topic_credential_type_id", "issuer_id"]
    ∧ (facetNarrowLoop clean params fq).narrows
        = fq.narrows
          ++ ((getlist params "category").filter (fun v => v ≠ "")).map
              (narrowClause clean "category")
          ++ ((getlist params "credential_type_id").filter (fun v => v ≠ "")).map
              (narrowClause clean "credential_type_id")
          ++ ((getlist params "topic_credential_type_id").filter (fun v => v ≠ "")).map
              (narrowClause clean "topic_credential_type_id")
          ++ ((getlist params "issuer_id").filter (fun v => v ≠ "")).map
              (narrowClause clean "issuer_id")
    ∧ (facetNarrowLoop clean [("category", "A"), ("category", "B")] fq).narrows
        = fq.narrows
          ++ [narrowClause clean "category" "A", narrowClause clean "category" "B"] := by
  refine ⟨rfl, ?_, ?_⟩
  · rw [facetNarrowLoop_eq]
  · simp [facetNarrowLoop_eq, getlist]

/-- C8: absent `latest` behaves identically to `latest=true` and absent
`revoked` identically to `revoked=false`, the declared per-dimension swagger
defaults being inactive=false, latest=true, revoked=false. -/
theorem claim_C8 :
    (∀ dflt, resolveStatusParam none dflt = resolveStatusParam (some dflt) dflt)
    ∧ (∀ dim, statusNarrowing dim (resolveStatusParam none "true")
        = statusNarrowing dim (resolveStatusParam (some "true") "true"))
    ∧ (∀ dim, statusNarrowing dim (resolveStatusParam none "false")
        = statusNarrowing dim (resolveStatusParam (some "false") "false"))
    ∧ swaggerStatusDefault "inactive" = some "false"
    ∧ swaggerStatusDefault "latest" = some "true"
    ∧ swaggerStatusDefault "revoked" = some "false" :=
  ⟨fun _ => rfl, fun _ => rfl, fun _ => rfl, by decide, by decide, by decide⟩

/-- C9: `LIMIT` is the startup setting `HAYSTACK_MAX_RESULTS` with default
200, and every clamping operation of the bounded query wrapper clamps
against this one fixed value. -/
theorem claim_C9 :
    LIMIT none = 200
    ∧ (∀ v, LIMIT (some v) = v)
    ∧ (∀ s C, TopicSearchQuerySet.len (LIMIT s) C = min C (LIMIT s))
    ∧ (∀ s C, TopicSearchQuerySet.count (LIMIT s) C = min C (LIMIT s))
    ∧ (∀ s start stop, TopicSearchQuerySet.fillCacheArgs (LIMIT s) start stop
          = (start.map (fun x => min x (LIMIT s)), stop.map (fun x => min x (LIMIT s)))) :=
  ⟨rfl, fun _ => rfl, fun s C => len_eq_min (LIMIT s) C,
    fun s C => count_eq_min (LIMIT s) C,
    fun s start stop => fillCacheArgs_eq_map_min (LIMIT s) start stop⟩

/-- C10: a supplied facet-narrowing value that is the empty string is
skipped entirely — removing all empty-valued parameters changes nothing, an
inner-loop pass over just an empty value leaves the queryset unchanged, and
so does a full loop pass over `category=`. -/
theorem claim_C10 (clean : String → String) (params : List (String × String))
    (fq : Queryset) (key : String) :
    facetNarrowLoop clean params fq
        = facetNarrowLoop clean (params.filter (fun p => p.2 ≠ "")) fq
    ∧ narrowForValues clean key fq [""] = fq
    ∧ facetNarrowLoop clean [("category", "")] fq = fq := by
  refine ⟨?_, ?_, ?_⟩
  · rw [facetNarrowLoop_eq, facetNarrowLoop_eq]
    simp only [getlist_filter_falsy]
  · simp [narrowForValues]
  · simp [facetNarrowLoop_eq, getlist]

end VcrSearch
